import Mathlib

/-!
Verification of the keyboard-driven application-menu navigation core
(`NavigableAppMenuModel`, `src/appshell/view/navigableappmenumodel.cpp`).

The C++ class is embedded shallowly:

* `MenuItem` mirrors the external menu item store entries (id, title with
  an optional mnemonic marker, subitems).
* `NavState` mirrors the mutable member state of the class
  (`m_highlightedMenuId`, `m_openedMenuId`, `m_needActivateHighlight`,
  `m_lastActiveNavigationControl`).
* `NavEnv` is a read-only snapshot of the external collaborators consulted
  by the code: the item store, the key-resolution service (`possibleKeys`
  on a character, here a function `Char → List Int`), and the
  focus-navigation controller observables (`isHighlight`, `activeControl`,
  `activeSection`, `activePanel`).
* Calls into the focus-navigation bridge and the action dispatcher, and
  the emitted change signals, are recorded as an explicit `Effect` trace;
  every state-mutating member function becomes a function
  `... → NavState → Step` where `Step` packs the new state and the trace.
* `QKeyEvent` data is flattened into `KeyEvent`: the event type, whether
  the `dynamic_cast<QKeyEvent*>` succeeds, the modifier bits the code
  reads, the key code, the produced text length, and the key-resolution
  result for the event (`possibleKeys(keyEvent)`), which is external.

Accessors inherited from `AbstractMenuModel` (`item(index)`, `itemIndex`,
`rowCount`, `findMenu`, `findItem`, `MenuItem::isValid`) are not part of
this translation unit; they are modelled from the spec as total lookups
whose unresolved case yields an invalid (empty-id) item, matching the
spec's "every unresolved lookup is a no-op" design.
-/

/-- A menu item of the external Menu Item Store: identifier, display title
(possibly containing a mnemonic marker `&`), ordered subitems. -/
inductive MenuItem where
  | mk (id : String) (title : String) (subitems : List MenuItem)

def MenuItem.id : MenuItem → String
  | .mk i _ _ => i

def MenuItem.title : MenuItem → String
  | .mk _ t _ => t

def MenuItem.subitems : MenuItem → List MenuItem
  | .mk _ _ s => s

/-- Invalid menu item: what the modelled store lookups return when
unresolved (`MenuItem::isValid()` is false, i.e. empty id). -/
def invalidMenuItem : MenuItem := MenuItem.mk "" "" []

/-- Qt key codes used by the code (values from `Qt::Key`). -/
def Key_Space : Int := 0x20
def Key_Escape : Int := 0x01000000
def Key_Return : Int := 0x01000004
def Key_Left : Int := 0x01000012
def Key_Right : Int := 0x01000014
def Key_Down : Int := 0x01000015
def Key_Shift : Int := 0x01000020
def Key_Alt : Int := 0x01000023

/-- External calls and emitted signals, recorded as a trace. -/
inductive Effect where
  | highlightedMenuIdChanged (id : String)
  | openedMenuIdChanged (id : String)
  | openMenu (id : String)
  | dispatch (action : String)
  | setActive (control : Nat) (active : Bool)
  | requestActive (control : Nat)
  | requestActivateByName (sectionName panelName itemId : String)
  | trigger (control : Nat)
deriving DecidableEq, Repr

/-- The mutable member state of `NavigableAppMenuModel`. -/
structure NavState where
  highlightedMenuId : String
  openedMenuId : String
  needActivateHighlight : Bool
  lastActiveNavigationControl : Option Nat
deriving DecidableEq, Repr

/-- Read-only snapshot of the external collaborators. -/
structure NavEnv where
  items : List MenuItem
  pk : Char → List Int
  isHighlight : Bool
  activeControl : Option Nat
  activeSection : Option String
  activePanel : Option String

/-- Result of a state-mutating member function: new state plus the trace
of external calls and signals it produced, in order. -/
structure Step where
  state : NavState
  effects : List Effect
deriving DecidableEq, Repr

/-- Sequencing of two mutating calls: thread the state, append traces. -/
def seqStep (a : Step) (f : NavState → Step) : Step :=
  let b := f a.state
  ⟨b.state, a.effects ++ b.effects⟩

/-- Qt event types distinguished by the code's switch. -/
inductive QEventType where
  | shortcutOverride
  | keyPress
  | keyRelease
  | mouseButtonPress
  | other
deriving DecidableEq, Repr

/-- Flattened incoming event. `isKeyEvent` records whether the
`dynamic_cast<QKeyEvent*>` succeeds (false for mouse events);
`eventKeys` is `possibleKeys(keyEvent)` — the external key-resolution
result for the event. -/
structure KeyEvent where
  etype : QEventType
  isKeyEvent : Bool
  alt : Bool
  shift : Bool
  otherMods : Bool
  key : Int
  textLength : Nat
  eventKeys : List Int
deriving Repr

/-- `NavigableAppMenuModel::setHighlightedMenuId`: no-op when unchanged,
otherwise update and emit the change signal. -/
def setHighlightedMenuId (id : String) (s : NavState) : Step :=
  if s.highlightedMenuId == id then ⟨s, []⟩
  else ⟨{ s with highlightedMenuId := id }, [.highlightedMenuIdChanged id]⟩

/-- `NavigableAppMenuModel::resetNavigation`. -/
def resetNavigation (s : NavState) : Step :=
  setHighlightedMenuId "" s

/-- `NavigableAppMenuModel::restoreMUNavigationSystemState`: if a control
reference is saved, request it active. (The saved reference is not
cleared.) -/
def restoreMUNavigationSystemState (s : NavState) : Step :=
  match s.lastActiveNavigationControl with
  | some c => ⟨s, [.requestActive c]⟩
  | none => ⟨s, []⟩

/-- `NavigableAppMenuModel::saveMUNavigationSystemState`: no-op unless the
controller's highlight indicator is on; otherwise save the active control
(if any) and deactivate it. -/
def saveMUNavigationSystemState (env : NavEnv) (s : NavState) : Step :=
  if !env.isHighlight then ⟨s, []⟩
  else
    match env.activeControl with
    | some c => ⟨{ s with lastActiveNavigationControl := some c }, [.setActive c false]⟩
    | none => ⟨s, []⟩

/-- `NavigableAppMenuModel::activateHighlightedMenu`: emit the open-menu
request and dispatch the canonical-first-control action. -/
def activateHighlightedMenu (s : NavState) : Step :=
  ⟨s, [.openMenu s.highlightedMenuId, .dispatch "nav-first-control"]⟩

/-- Modelled from the spec: `AbstractMenuModel::itemIndex` is not in this
translation unit; the store is an ordered sequence, so the index of an id
is its first position, `-1` when absent. -/
def itemIndex (items : List MenuItem) (id : String) : Int :=
  match items.findIdx? (fun it => it.id == id) with
  | some i => (i : Int)
  | none => -1

/-- Modelled from the spec: `AbstractMenuModel::item(index)` is not in
this translation unit; per the spec every unresolved lookup is a no-op,
so an out-of-range index yields the invalid (empty-id) item. -/
def itemAt (items : List MenuItem) (i : Int) : MenuItem :=
  if h : 0 ≤ i ∧ i.toNat < items.length then items.get ⟨i.toNat, h.2⟩
  else invalidMenuItem

/-- Modelled from the spec: `AbstractMenuModel::findMenu` is not in this
translation unit; it resolves a top-level menu id to its item, invalid
when absent. -/
def findMenu (items : List MenuItem) (menuId : String) : MenuItem :=
  match items.find? (fun it => it.id == menuId) with
  | some it => it
  | none => invalidMenuItem

/-- Modelled from the spec: `AbstractMenuModel::findItem` is not in this
translation unit; it resolves an item id in the store. The spec treats
the store as "recursively one level deep for this core's purposes", so
the search covers each top-level item followed by its subitems, in store
order; invalid when absent. -/
def findItem (items : List MenuItem) (itemId : String) : MenuItem :=
  match (items.flatMap (fun it => it :: it.subitems)).find? (fun it => it.id == itemId) with
  | some it => it
  | none => invalidMenuItem

/-- `NavigableAppMenuModel::isNavigationStarted`. -/
def isNavigationStarted (s : NavState) : Bool :=
  s.highlightedMenuId != ""

/-- `NavigableAppMenuModel::isNavigateKey`. -/
def isNavigateKey (key : Int) : Bool :=
  [Key_Left, Key_Right, Key_Down, Key_Space, Key_Escape, Key_Return].contains key

/-- `NavigableAppMenuModel::menuItemId(items, activatePossibleKeys)`: walk
the items in order; skip items whose title has no `&`; otherwise read the
title character right after the first `&` (a Qt `QString` read at
position `size()` yields the null character), uppercase it, resolve it
through the key-resolution service, and return the first item whose
resolved set intersects the event's; empty string when none. -/
def menuItemId (pk : Char → List Int) : List MenuItem → List Int → String
  | [], _ => ""
  | item :: rest, eventKeys =>
    match item.title.data.findIdx? (fun c => c == '&') with
    | none => menuItemId pk rest eventKeys
    | some idx =>
      if ((pk ((item.title.data.getD (idx + 1) (Char.ofNat 0)).toUpper)).any
            (fun k => eventKeys.contains k))
      then item.id
      else menuItemId pk rest eventKeys

/-- Spec-side per-item matcher (for the refinement statement of mnemonic
matching): an item matches when its title has a marker and the key set
resolved from the uppercased character after the first marker meets the
event's resolved key set. -/
def matchesMnemonic (pk : Char → List Int) (eventKeys : List Int) (item : MenuItem) : Bool :=
  match item.title.data.findIdx? (fun c => c == '&') with
  | none => false
  | some idx =>
    (pk ((item.title.data.getD (idx + 1) (Char.ofNat 0)).toUpper)).any
      (fun k => eventKeys.contains k)

/-- `NavigableAppMenuModel::hasItem`. -/
def hasItem (env : NavEnv) (activatePossibleKeys : List Int) : Bool :=
  menuItemId env.pk env.items activatePossibleKeys != ""

/-- `NavigableAppMenuModel::hasSubItem`. -/
def hasSubItem (env : NavEnv) (menuId : String) (activatePossibleKeys : List Int) : Bool :=
  let menuItem := findMenu env.items menuId
  if menuItem.subitems.isEmpty then false
  else menuItemId env.pk menuItem.subitems activatePossibleKeys != ""

/-- `NavigableAppMenuModel::navigate(int)` — the switch on the navigation
key: Left/Right move the highlight with wraparound, Down/Space/Return
activate, Escape resets and restores. -/
def navigate (env : NavEnv) (key : Int) (s : NavState) : Step :=
  if key == Key_Left then
    let newIndex := itemIndex env.items s.highlightedMenuId - 1
    let newIndex := if newIndex < 0 then (env.items.length : Int) - 1 else newIndex
    setHighlightedMenuId (itemAt env.items newIndex).id s
  else if key == Key_Right then
    let newIndex := itemIndex env.items s.highlightedMenuId + 1
    let newIndex := if newIndex > (env.items.length : Int) - 1 then 0 else newIndex
    setHighlightedMenuId (itemAt env.items newIndex).id s
  else if key == Key_Down || key == Key_Space || key == Key_Return then
    activateHighlightedMenu s
  else if key == Key_Escape then
    seqStep (resetNavigation s) restoreMUNavigationSystemState
  else ⟨s, []⟩

/-- `NavigableAppMenuModel::navigate(const QSet<int>&)` — mnemonic
navigation: save the focus-navigation state, highlight the matching item,
activate it. -/
def navigateByMnemonic (env : NavEnv) (eventKeys : List Int) (s : NavState) : Step :=
  seqStep (seqStep (saveMUNavigationSystemState env s)
      (setHighlightedMenuId (menuItemId env.pk env.items eventKeys)))
    activateHighlightedMenu

/-- `NavigableAppMenuModel::navigateToFirstMenu`. -/
def navigateToFirstMenu (env : NavEnv) (s : NavState) : Step :=
  setHighlightedMenuId (itemAt env.items 0).id s

/-- The subitem resolved by `navigateToSubItem` (the expression
`findItem(menuItemId(findMenu(menuId).subitems(), keys))` of the code). -/
def subItemFor (env : NavEnv) (menuId : String) (eventKeys : List Int) : MenuItem :=
  findItem env.items (menuItemId env.pk (findMenu env.items menuId).subitems eventKeys)

/-- `NavigableAppMenuModel::navigateToSubItem`: resolve the matching
subitem (invalid → no-op); require an active section and panel (missing →
no-op); request activation by name; then, if the subitem is itself a menu
(non-empty subitems) and a control is active, trigger it. -/
def navigateToSubItem (env : NavEnv) (menuId : String) (eventKeys : List Int)
    (s : NavState) : Step :=
  let subItem := subItemFor env menuId eventKeys
  if subItem.id == "" then ⟨s, []⟩
  else
    match env.activeSection, env.activePanel with
    | some sec, some pan =>
      let effs := [Effect.requestActivateByName sec pan subItem.id]
      match env.activeControl with
      | none => ⟨s, effs⟩
      | some c =>
        if subItem.subitems.isEmpty then ⟨s, effs⟩
        else ⟨s, effs ++ [Effect.trigger c]⟩
    | _, _ => ⟨s, []⟩

/-- Result of an event-processing entry point: whether the event was
consumed, the new state, the effect trace. -/
structure ProcResult where
  consumed : Bool
  state : NavState
  effects : List Effect
deriving DecidableEq, Repr

/-- `NavigableAppMenuModel::processEventForOpenedMenu`: only the
`ShortcutOverride` probe is handled; for a no-modifier single-character
event whose resolved keys match a subitem mnemonic of the opened menu,
the probe navigates to the subitem and consumes the event. -/
def processEventForOpenedMenu (env : NavEnv) (ev : KeyEvent) (s : NavState) : ProcResult :=
  match ev.etype with
  | .shortcutOverride =>
    let isNavigationWithSymbol := (!ev.alt && !ev.shift && !ev.otherMods)
                                  && ev.textLength == 1
    if !isNavigationWithSymbol then ⟨false, s, []⟩
    else if hasSubItem env s.openedMenuId ev.eventKeys then
      let st := navigateToSubItem env s.openedMenuId ev.eventKeys s
      ⟨true, st.state, st.effects⟩
    else ⟨false, s, []⟩
  | _ => ⟨false, s, []⟩

/-- `NavigableAppMenuModel::processEventForAppMenu`: the
`dynamic_cast<QKeyEvent*>` guard returns early for non-key events; then
the switch on the event type implements the probe, press, release and
mouse-press branches of the code. -/
def processEventForAppMenu (env : NavEnv) (ev : KeyEvent) (s : NavState) : ProcResult :=
  if !ev.isKeyEvent then ⟨false, s, []⟩
  else
    let modifiersNone := !ev.alt && !ev.shift && !ev.otherMods
    let isSingleSymbol := ev.textLength == 1
    let navStarted := isNavigationStarted s
    let isNavigationWithSymbol := modifiersNone && isSingleSymbol && navStarted
    let isNavigationWithAlt := ev.alt && !ev.shift && isSingleSymbol
    let isAltKey := ev.key == Key_Alt && !ev.shift
    match ev.etype with
    | .shortcutOverride =>
      if navStarted && isNavigateKey ev.key then ⟨true, s, []⟩
      else if (isNavigationWithSymbol || isNavigationWithAlt)
              && hasItem env ev.eventKeys then ⟨true, s, []⟩
      else ⟨false, s, []⟩
    | .keyPress =>
      if isAltKey then ⟨false, { s with needActivateHighlight := true }, []⟩
      else if navStarted && isNavigateKey ev.key then
        let st := navigate env ev.key s
        ⟨true, { st.state with needActivateHighlight := false }, st.effects⟩
      else if (isNavigationWithSymbol || isNavigationWithAlt)
              && hasItem env ev.eventKeys then
        let st := navigateByMnemonic env ev.eventKeys s
        ⟨true, { st.state with needActivateHighlight := true }, st.effects⟩
      else ⟨false, s, []⟩
    | .keyRelease =>
      if !isAltKey then ⟨false, s, []⟩
      else if navStarted then
        let st := seqStep (resetNavigation s) restoreMUNavigationSystemState
        ⟨false, st.state, st.effects⟩
      else if s.needActivateHighlight then
        let st := seqStep (saveMUNavigationSystemState env s) (navigateToFirstMenu env)
        ⟨false, st.state, st.effects⟩
      else ⟨false, { s with needActivateHighlight := true }, []⟩
    | .mouseButtonPress =>
      let st := resetNavigation s
      ⟨false, st.state, st.effects⟩
    | .other => ⟨false, s, []⟩

/-- Run a sequence of events through `processEventForAppMenu`, threading
state and concatenating traces. -/
def runEvents (env : NavEnv) (evs : List KeyEvent) (s : NavState) : Step :=
  match evs with
  | [] => ⟨s, []⟩
  | ev :: rest =>
    let r := processEventForAppMenu env ev s
    let r2 := runEvents env rest r.state
    ⟨r2.state, r.effects ++ r2.effects⟩

/-- The `resetNavigation(); restoreMUNavigationSystemState();` pairing the
code uses to end a session (Escape path and Alt-release path); the spec
calls it `EndSessionAndRestore()`. -/
def endSessionAndRestore (s : NavState) : Step :=
  seqStep (resetNavigation s) restoreMUNavigationSystemState

/-- Number of `requestActive` calls in a trace. -/
def countRequestActive (effs : List Effect) : Nat :=
  (effs.filter fun e => match e with | .requestActive _ => true | _ => false).length

/-- Number of open-menu notifications in a trace. -/
def countOpenMenu (effs : List Effect) : Nat :=
  (effs.filter fun e => match e with | .openMenu _ => true | _ => false).length

/-- Number of action-bus dispatches in a trace. -/
def countDispatch (effs : List Effect) : Nat :=
  (effs.filter fun e => match e with | .dispatch _ => true | _ => false).length

/-- Key-resolution service fixture used in concrete scenarios: a
character is producible exactly by the key whose code is its code point
(so `'F' ↦ [70]`, `'S' ↦ [83]`); the null character is not producible. -/
def pkCode : Char → List Int :=
  fun c => if c == Char.ofNat 0 then [] else [(c.toNat : Int)]

def saveItem : MenuItem := MenuItem.mk "save" "&Save" []
def manageItem : MenuItem := MenuItem.mk "manage" "&Manage" []
def pluginsItem : MenuItem := MenuItem.mk "plugins" "&Plugins" [manageItem]
def fileItem : MenuItem := MenuItem.mk "file" "&File" [saveItem, pluginsItem]
def editItem : MenuItem := MenuItem.mk "edit" "&Edit" []
def helpItem : MenuItem := MenuItem.mk "help" "&Help" []
def threeItems : List MenuItem := [fileItem, editItem, helpItem]

/-- No-session initial state. -/
def initState : NavState :=
  { highlightedMenuId := "", openedMenuId := "", needActivateHighlight := false,
    lastActiveNavigationControl := none }

/-- The File/Edit/Help environment (no focus highlight indicator). -/
def env3 : NavEnv :=
  { items := threeItems, pk := pkCode, isHighlight := false, activeControl := none,
    activeSection := some "sec", activePanel := some "pan" }

/-- Same store, with the focus controller fully populated. -/
def envSub : NavEnv :=
  { env3 with isHighlight := true, activeControl := some 1 }

/-- Five-item environment for wraparound scenarios. -/
def fiveItems : List MenuItem :=
  [MenuItem.mk "m0" "&A" [], MenuItem.mk "m1" "&B" [], MenuItem.mk "m2" "&C" [],
   MenuItem.mk "m3" "&D" [], MenuItem.mk "m4" "&E" []]

def env5 : NavEnv :=
  { items := fiveItems, pk := pkCode, isHighlight := false, activeControl := none,
    activeSection := none, activePanel := none }

/-- A bare Alt key press (Alt produces no text). -/
def altPressEvent : KeyEvent :=
  { etype := .keyPress, isKeyEvent := true, alt := true, shift := false,
    otherMods := false, key := Key_Alt, textLength := 0, eventKeys := [] }

/-- A bare Alt key release. -/
def altReleaseEvent : KeyEvent :=
  { etype := .keyRelease, isKeyEvent := true, alt := false, shift := false,
    otherMods := false, key := Key_Alt, textLength := 0, eventKeys := [] }

/-- A committed Escape key press. -/
def escEvent : KeyEvent :=
  { etype := .keyPress, isKeyEvent := true, alt := false, shift := false,
    otherMods := false, key := Key_Escape, textLength := 0, eventKeys := [] }

/-- Plain `S` key press probe (no modifiers, single character, resolved to
key code 83). -/
def sOverrideEvent : KeyEvent :=
  { etype := .shortcutOverride, isKeyEvent := true, alt := false, shift := false,
    otherMods := false, key := 83, textLength := 1, eventKeys := [83] }

/-- A mouse button press: not a `QKeyEvent`, so the
`dynamic_cast<QKeyEvent*>` fails. -/
def mousePressEvent : KeyEvent :=
  { etype := .mouseButtonPress, isKeyEvent := false, alt := false, shift := false,
    otherMods := false, key := 0, textLength := 0, eventKeys := [] }

/-- The isolated Alt tap run of the C1 scenario. -/
def altTapRun : Step := runEvents env3 [altPressEvent, altReleaseEvent] initState


/-- Session active on Edit with control 7 saved. -/
def sEdit7 : NavState :=
  { initState with highlightedMenuId := "edit", lastActiveNavigationControl := some 7 }

/-- The double `EndSessionAndRestore` run on a session with a saved
control, used in the C2 analysis. -/
def doubleEndSession (s : NavState) : Step :=
  seqStep (endSessionAndRestore s) endSessionAndRestore

/-- The five-item scenario state: highlight on the last item. -/
def sM4 : NavState := { initState with highlightedMenuId := "m4" }

/-- The empty menu store environment. -/
def envEmpty : NavEnv :=
  { items := [], pk := pkCode, isHighlight := false, activeControl := none,
    activeSection := none, activePanel := none }

/-- An item whose title ends in a lone marker character. -/
def brokenItem : MenuItem := MenuItem.mk "broken" "Broken&" []

/-- The opened-File state used in the submenu scenarios. -/
def openedFileState : NavState := { initState with openedMenuId := "file" }

/-! ## Helper lemmas -/

theorem setHighlightedMenuId_state (id : String) (s : NavState) :
    (setHighlightedMenuId id s).state = { s with highlightedMenuId := id } := by
  unfold setHighlightedMenuId
  split
  · next h => cases s; simp_all
  · rfl

theorem setHighlightedMenuId_highlighted (id : String) (s : NavState) :
    (setHighlightedMenuId id s).state.highlightedMenuId = id := by
  rw [setHighlightedMenuId_state]

theorem endSessionAndRestore_spec (s : NavState) :
    (endSessionAndRestore s).state = { s with highlightedMenuId := "" } ∧
    (endSessionAndRestore s).effects
      = (if s.highlightedMenuId = "" then [] else [.highlightedMenuIdChanged ""])
        ++ (match s.lastActiveNavigationControl with
            | some c => [.requestActive c]
            | none => []) := by
  unfold endSessionAndRestore seqStep resetNavigation
  constructor
  · rw [show (restoreMUNavigationSystemState (setHighlightedMenuId "" s).state).state
        = (setHighlightedMenuId "" s).state by
        unfold restoreMUNavigationSystemState; split <;> rfl]
    exact setHighlightedMenuId_state "" s
  · rw [setHighlightedMenuId_state]
    unfold setHighlightedMenuId restoreMUNavigationSystemState
    cases h : s.lastActiveNavigationControl <;>
      by_cases hh : s.highlightedMenuId = "" <;> simp_all

/-! ## Claim theorems -/

/-- C1 (counterexample): for the 3-item menu `[File(&F), Edit(&E),
Help(&H)]` with no session, a bare Alt press then release does set
`highlightedMenuId` to File's id, but `Activate()` does not fire even
once: the trace has no open-menu notification and no action-bus dispatch,
refuting the claim that it fires exactly once. -/
theorem C1_counterexample :
    altTapRun.state.highlightedMenuId = "file" ∧
    countOpenMenu altTapRun.effects = 0 ∧
    countDispatch altTapRun.effects = 0 ∧
    ¬(countOpenMenu altTapRun.effects = 1 ∧ countDispatch altTapRun.effects = 1) := by
  decide

/-- C1 (amended): for the 3-item menu with no session, a bare Alt press
then release sets `highlightedMenuId` to File's id (the first top-level
item) and emits only the highlight-change notification; no `Activate()`
occurs (the release path calls `navigateToFirstMenu`, which only sets the
highlight). -/
theorem C1_alt_tap_highlights_first :
    altTapRun.state.highlightedMenuId = fileItem.id ∧
    altTapRun.effects = [Effect.highlightedMenuIdChanged "file"] := by
  decide

/-- C2 (counterexample): starting from a session on Edit with control 7
saved, running `EndSessionAndRestore` twice leaves `highlightedMenuId`
empty but issues the restore request twice, not at most once — the code
never clears `m_lastActiveNavigationControl`. -/
theorem C2_counterexample :
    (doubleEndSession sEdit7).state.highlightedMenuId = "" ∧
    countRequestActive (doubleEndSession sEdit7).effects = 2 ∧
    ¬(countRequestActive (doubleEndSession sEdit7).effects ≤ 1) := by
  decide

/-- C2 (amended): `EndSessionAndRestore` twice in a row leaves
`highlightedMenuId` empty, but the saved control reference survives both
calls (it is never cleared), so the restore request is issued once per
call — twice in total when a control is saved, zero times otherwise. -/
theorem C2_restore_request_per_call (s : NavState) :
    (doubleEndSession s).state.highlightedMenuId = "" ∧
    (doubleEndSession s).state.lastActiveNavigationControl
      = s.lastActiveNavigationControl ∧
    countRequestActive (doubleEndSession s).effects
      = (match s.lastActiveNavigationControl with
         | some _ => 2
         | none => 0) := by
  have h1 := endSessionAndRestore_spec s
  have h2 := endSessionAndRestore_spec { s with highlightedMenuId := "" }
  simp only [doubleEndSession, seqStep, h1.1, h1.2, h2.1, h2.2]
  cases h : s.lastActiveNavigationControl <;>
    by_cases hh : s.highlightedMenuId = "" <;>
      simp_all [countRequestActive]

/-- C2 (witness for the amended theorem): the amended statement at the
concrete session-on-Edit state with control 7 saved. -/
theorem C2_restore_request_per_call_witness :
    (doubleEndSession sEdit7).state.highlightedMenuId = "" ∧
    (doubleEndSession sEdit7).state.lastActiveNavigationControl
      = sEdit7.lastActiveNavigationControl ∧
    countRequestActive (doubleEndSession sEdit7).effects
      = (match sEdit7.lastActiveNavigationControl with
         | some _ => 2
         | none => 0) :=
  C2_restore_request_per_call sEdit7

/-- C8 (code evaluated at the failing input): a pointer-press event is not
a `QKeyEvent`, so `processEventForAppMenu` returns at the
`dynamic_cast` guard before its `MouseButtonPress` switch case: the event
is not handled, no effect is produced, and `highlightedMenuId` is NOT
cleared — for any prior state, in particular an active session. -/
theorem C8_mouse_press_not_handled (env : NavEnv) (s : NavState) :
    processEventForAppMenu env mousePressEvent s = ⟨false, s, []⟩ ∧
    (processEventForAppMenu env mousePressEvent s).state.highlightedMenuId
      = s.highlightedMenuId := by
  exact ⟨rfl, rfl⟩

/-- C3: with a session active and the highlight at index `i` of the
`n`-item top-level sequence, `Key_Right` (Move Next) moves the highlight
to the item at index `(i+1) mod n` and `Key_Left` (Move Previous) to the
item at index `(i-1) mod n` (integer `emod`, so Next from the last index
wraps to 0 and Previous from index 0 wraps to the last index). -/
theorem C3_move_wraps (env : NavEnv) (s : NavState) (i : Int)
    (hsession : s.highlightedMenuId ≠ "")
    (h0 : 0 ≤ i) (hn : i < (env.items.length : Int))
    (hidx : itemIndex env.items s.highlightedMenuId = i) :
    (navigate env Key_Right s).state.highlightedMenuId
      = (itemAt env.items ((i + 1) % (env.items.length : Int))).id ∧
    (navigate env Key_Left s).state.highlightedMenuId
      = (itemAt env.items ((i - 1) % (env.items.length : Int))).id := by
  constructor
  · rw [show navigate env Key_Right s
        = setHighlightedMenuId
            (itemAt env.items
              (if itemIndex env.items s.highlightedMenuId + 1
                    > (env.items.length : Int) - 1 then 0
               else itemIndex env.items s.highlightedMenuId + 1)).id s from rfl,
      setHighlightedMenuId_highlighted, hidx]
    congr 2
    split
    · next hgt =>
      have hi : i + 1 = (env.items.length : Int) := by omega
      rw [hi, Int.emod_self]
    · next hle =>
      rw [Int.emod_eq_of_lt (by omega) (by omega)]
  · rw [show navigate env Key_Left s
        = setHighlightedMenuId
            (itemAt env.items
              (if itemIndex env.items s.highlightedMenuId - 1 < 0
               then (env.items.length : Int) - 1
               else itemIndex env.items s.highlightedMenuId - 1)).id s from rfl,
      setHighlightedMenuId_highlighted, hidx]
    congr 2
    split
    · next hlt =>
      have hi : i = 0 := by omega
      subst hi
      rw [show (0 : Int) - 1 = -1 by ring,
        show ((-1 : Int) % (env.items.length : Int))
          = ((-1 : Int) + (env.items.length : Int) * 1) % (env.items.length : Int) from
          (Int.add_mul_emod_self_left (-1) (env.items.length : Int) 1).symm,
        show (-1 : Int) + (env.items.length : Int) * 1 = (env.items.length : Int) - 1 by ring,
        Int.emod_eq_of_lt (by omega) (by omega)]
    · next hge =>
      rw [Int.emod_eq_of_lt (by omega) (by omega)]

/-- C3 (witness): in the 5-item menu with the highlight on item 4, Next
wraps to item 0 and (for the highlight on index 4) Previous moves to
index 3; the hypotheses of `C3_move_wraps` hold concretely. -/
theorem C3_move_wraps_witness :
    sM4.highlightedMenuId ≠ "" ∧ (0 : Int) ≤ 4 ∧ (4 : Int) < (env5.items.length : Int) ∧
    itemIndex env5.items sM4.highlightedMenuId = 4 ∧
    ((navigate env5 Key_Right sM4).state.highlightedMenuId
        = (itemAt env5.items ((4 + 1) % (env5.items.length : Int))).id ∧
     (navigate env5 Key_Left sM4).state.highlightedMenuId
        = (itemAt env5.items ((4 - 1) % (env5.items.length : Int))).id) :=
  ⟨by decide, by decide, by decide, by decide,
   C3_move_wraps env5 sM4 4 (by decide) (by decide) (by decide) (by decide)⟩

/-- C7: with a session active, a committed Escape key press is consumed,
ends the session (`highlightedMenuId` becomes empty), and, whenever a
focus control was saved at session start, issues the `requestActive`
restore request for it. -/
theorem C7_escape_ends_session (env : NavEnv) (ev : KeyEvent) (s : NavState)
    (hk : ev.isKeyEvent = true) (hty : ev.etype = QEventType.keyPress)
    (hkey : ev.key = Key_Escape) (hs : s.highlightedMenuId ≠ "") :
    (processEventForAppMenu env ev s).consumed = true ∧
    (processEventForAppMenu env ev s).state.highlightedMenuId = "" ∧
    (∀ c, s.lastActiveNavigationControl = some c →
      Effect.requestActive c ∈ (processEventForAppMenu env ev s).effects) := by
  have e1 : isNavigateKey Key_Escape = true := by decide
  have e2 : (Key_Escape == Key_Alt) = false := by decide
  have hproc : processEventForAppMenu env ev s =
      ⟨true, { (endSessionAndRestore s).state with needActivateHighlight := false },
       (endSessionAndRestore s).effects⟩ := by
    simp only [processEventForAppMenu, hk, hty, hkey, isNavigationStarted, e1, e2,
      Bool.not_true, Bool.false_and, Bool.and_true, bne_iff_ne, ne_eq, hs,
      not_false_eq_true, if_false, if_true]
    rw [show navigate env Key_Escape s = endSessionAndRestore s from rfl]
    simp
  obtain ⟨h1, h2⟩ := endSessionAndRestore_spec s
  refine ⟨by rw [hproc], by rw [hproc]; simp [h1], ?_⟩
  intro c hc
  rw [hproc]
  simp only [h2, hc]
  exact List.mem_append_right _ (by simp)

/-- C7 (witness): the concrete Escape press on a session highlighted on
Edit with control 7 saved: consumed, highlight cleared, restore request
for control 7 issued. -/
theorem C7_escape_ends_session_witness :
    escEvent.isKeyEvent = true ∧ escEvent.etype = QEventType.keyPress ∧
    escEvent.key = Key_Escape ∧ sEdit7.highlightedMenuId ≠ "" ∧
    (processEventForAppMenu env3 escEvent sEdit7).consumed = true ∧
    (processEventForAppMenu env3 escEvent sEdit7).state.highlightedMenuId = "" ∧
    Effect.requestActive 7 ∈ (processEventForAppMenu env3 escEvent sEdit7).effects :=
  have h := C7_escape_ends_session env3 escEvent sEdit7 rfl rfl rfl (by decide)
  ⟨rfl, rfl, rfl, by decide, h.1, h.2.1, h.2.2 7 rfl⟩

theorem findItem_id (items : List MenuItem) (itemId : String) :
    (findItem items itemId).id = itemId ∨ (findItem items itemId).id = "" := by
  unfold findItem
  cases h : (items.flatMap (fun it => it :: it.subitems)).find? (fun it => it.id == itemId) with
  | none => exact Or.inr rfl
  | some it => exact Or.inl (by simpa using List.find?_some h)

theorem navigateToSubItem_invalid (env : NavEnv) (menuId : String) (eventKeys : List Int)
    (s : NavState) (h : (subItemFor env menuId eventKeys).id = "") :
    navigateToSubItem env menuId eventKeys s = ⟨s, []⟩ := by
  unfold navigateToSubItem
  simp [h]

/-- C5: `menuItemId` over a list of items returns the id of the first
item, in the store's order, matching `matchesMnemonic` (marker present
and the uppercased character after the first marker resolving to a key
set meeting the event's), and empty string when none; items whose title
has no marker never satisfy `matchesMnemonic`, so they are skipped. -/
theorem C5_first_match (pk : Char → List Int) (eventKeys : List Int)
    (items : List MenuItem) :
    menuItemId pk items eventKeys
      = ((items.find? (matchesMnemonic pk eventKeys)).map MenuItem.id).getD "" ∧
    (∀ it ∈ items, it.title.data.findIdx? (fun c => c == '&') = none →
      matchesMnemonic pk eventKeys it = false) := by
  constructor
  · induction items with
    | nil => rfl
    | cons hd tl ih =>
      cases hfi : hd.title.data.findIdx? (fun c => c == '&') with
      | none =>
        have hm : matchesMnemonic pk eventKeys hd = false := by
          simp only [matchesMnemonic, hfi]
        rw [List.find?_cons_of_neg _ (by simp [hm]),
          show menuItemId pk (hd :: tl) eventKeys = menuItemId pk tl eventKeys from by
            simp only [menuItemId, hfi]]
        exact ih
      | some idx =>
        cases hc : ((pk ((hd.title.data.getD (idx + 1) (Char.ofNat 0)).toUpper)).any
            (fun k => eventKeys.contains k)) with
        | true =>
          have hm : matchesMnemonic pk eventKeys hd = true := by
            simp only [matchesMnemonic, hfi]
            exact hc
          rw [List.find?_cons_of_pos _ hm]
          simp only [menuItemId, hfi, hc]
          simp
        | false =>
          have hm : matchesMnemonic pk eventKeys hd = false := by
            simp only [matchesMnemonic, hfi]
            exact hc
          rw [List.find?_cons_of_neg _ (by simp [hm]),
            show menuItemId pk (hd :: tl) eventKeys = menuItemId pk tl eventKeys from by
              simp only [menuItemId, hfi, hc]
              simp]
          exact ih
  · intro it _ hnone
    simp only [matchesMnemonic, hnone]

/-- C5 (witness): the first-match refinement at the File/Edit/Help store
with the resolved key set of `E`; `menuItemId` picks Edit, matching the
spec-side first-match description. -/
theorem C5_first_match_witness :
    (menuItemId pkCode threeItems [69]
      = ((threeItems.find? (matchesMnemonic pkCode [69])).map MenuItem.id).getD "" ∧
     (∀ it ∈ threeItems, it.title.data.findIdx? (fun c => c == '&') = none →
       matchesMnemonic pkCode [69] it = false)) ∧
    menuItemId pkCode threeItems [69] = "edit" :=
  ⟨C5_first_match pkCode [69] threeItems, by decide⟩

/-- C9 (counterexample): with an empty top-level sequence and a session
active (highlight on Edit with control 7 saved), Move(Previous)
(`Key_Left`) is not a state-unchanged no-op: the index lookup fails, the
wrapped index resolves to the invalid item, and the highlight is set to
the empty string — the state changes and the highlight-change
notification is emitted, refuting "state unchanged". -/
theorem C9_counterexample :
    navigate envEmpty Key_Left sEdit7
      = ⟨{ sEdit7 with highlightedMenuId := "" },
         [Effect.highlightedMenuIdChanged ""]⟩ ∧
    ¬(navigate envEmpty Key_Left sEdit7 = ⟨sEdit7, []⟩) := by
  decide

/-- C9 (amended): no operation raises an error for an unresolved lookup
— every embedded operation is total. With an empty top-level sequence,
Move(Previous) (`Key_Left`), Move(Next) (`Key_Right`) and
`navigateToFirstMenu` all reduce to setting `highlightedMenuId` to the
empty string: a true no-op (state unchanged, no effect) when no session
is active, but with a session active they clear the highlight and emit
the highlight-change notification. Mnemonic matching over the empty
sequence yields no id, and when no subitem mnemonic matches (including a
missing menu id), `navigateToSubItem` is a no-op. -/
theorem C9_empty_sequence_clears (env : NavEnv) (s : NavState) (menuId : String)
    (eventKeys : List Int) (hempty : env.items = []) :
    navigate env Key_Left s = setHighlightedMenuId "" s ∧
    navigate env Key_Right s = setHighlightedMenuId "" s ∧
    navigateToFirstMenu env s = setHighlightedMenuId "" s ∧
    (s.highlightedMenuId = "" → setHighlightedMenuId "" s = ⟨s, []⟩) ∧
    (s.highlightedMenuId ≠ "" →
      setHighlightedMenuId "" s
        = ⟨{ s with highlightedMenuId := "" }, [.highlightedMenuIdChanged ""]⟩) ∧
    menuItemId env.pk env.items eventKeys = "" ∧
    (∀ env2 : NavEnv, hasSubItem env2 menuId eventKeys = false →
      navigateToSubItem env2 menuId eventKeys s = ⟨s, []⟩) := by
  obtain ⟨items, pk2, ihl, iac, isec, ipan⟩ := env
  obtain rfl : items = [] := hempty
  refine ⟨rfl, rfl, rfl, ?_, ?_, rfl, ?_⟩
  · intro h
    simp [setHighlightedMenuId, h]
  · intro h
    simp [setHighlightedMenuId, h]
  · intro env2 hsub
    apply navigateToSubItem_invalid
    unfold subItemFor
    have hmid : menuItemId env2.pk (findMenu env2.items menuId).subitems eventKeys = "" := by
      simp only [hasSubItem] at hsub
      by_cases he : (findMenu env2.items menuId).subitems.isEmpty = true
      · rw [List.isEmpty_iff] at he
        rw [he]
        rfl
      · simp only [he, if_false] at hsub
        simpa using hsub
    rw [hmid]
    rcases findItem_id env2.items "" with h | h <;> exact h

/-- C9 (witness): at the empty store, the moves and the first-menu jump
on the session-active Edit state clear the highlight and emit the
change notification (not a no-op), the empty store yields no mnemonic
match, and `navigateToSubItem` is a no-op for a missing menu id in the
File/Edit/Help environment. -/
theorem C9_empty_sequence_clears_witness :
    envEmpty.items = [] ∧
    (navigate envEmpty Key_Left sEdit7 = setHighlightedMenuId "" sEdit7 ∧
     navigate envEmpty Key_Right sEdit7 = setHighlightedMenuId "" sEdit7 ∧
     navigateToFirstMenu envEmpty sEdit7 = setHighlightedMenuId "" sEdit7) ∧
    sEdit7.highlightedMenuId ≠ "" ∧
    setHighlightedMenuId "" sEdit7
      = ⟨{ sEdit7 with highlightedMenuId := "" },
         [.highlightedMenuIdChanged ""]⟩ ∧
    menuItemId envEmpty.pk envEmpty.items [83] = "" ∧
    hasSubItem env3 "nope" [83] = false ∧
    navigateToSubItem env3 "nope" [83] sEdit7 = ⟨sEdit7, []⟩ :=
  have h := C9_empty_sequence_clears envEmpty sEdit7 "nope" [83] rfl
  ⟨rfl, ⟨h.1, h.2.1, h.2.2.1⟩, by decide, h.2.2.2.2.1 (by decide),
   h.2.2.2.2.2.1, by decide, h.2.2.2.2.2.2 env3 (by decide)⟩

/-- C10: for an item whose title's first `&` is its final character, the
character access at (marker index + 1) hits the position just past the
character data — the Qt `QString` read there yields the null character —
so `menuItemId` stays total and, since no key code of the event produces
the null character, the item is skipped rather than matched. -/
theorem C10_trailing_marker_skipped (pk : Char → List Int) (eventKeys : List Int)
    (item : MenuItem) (rest : List MenuItem) (i : Nat)
    (hidx : item.title.data.findIdx? (fun c => c == '&') = some i)
    (hlast : i + 1 = item.title.data.length)
    (hnull : ((pk (Char.ofNat 0)).any (fun k => eventKeys.contains k)) = false) :
    item.title.data.getD (i + 1) (Char.ofNat 0) = Char.ofNat 0 ∧
    matchesMnemonic pk eventKeys item = false ∧
    menuItemId pk (item :: rest) eventKeys = menuItemId pk rest eventKeys := by
  have hget : item.title.data.getD (i + 1) (Char.ofNat 0) = Char.ofNat 0 :=
    List.getD_eq_default _ _ (by omega)
  have hupper : (Char.ofNat 0).toUpper = Char.ofNat 0 := by decide
  refine ⟨hget, ?_, ?_⟩
  · simp only [matchesMnemonic, hidx, hget, hupper, hnull]
  · simp only [menuItemId, hidx, hget, hupper, hnull]
    simp

/-- C10 (witness): the trailing-marker item `Broken&` in front of the
File item: the read past the marker yields the null character and the
item is skipped, so the `F` key set still resolves to File. -/
theorem C10_trailing_marker_skipped_witness :
    brokenItem.title.data.findIdx? (fun c => c == '&') = some 6 ∧
    6 + 1 = brokenItem.title.data.length ∧
    ((pkCode (Char.ofNat 0)).any (fun k => ([70] : List Int).contains k)) = false ∧
    (brokenItem.title.data.getD (6 + 1) (Char.ofNat 0) = Char.ofNat 0 ∧
     matchesMnemonic pkCode [70] brokenItem = false ∧
     menuItemId pkCode (brokenItem :: [fileItem]) [70]
       = menuItemId pkCode [fileItem] [70]) ∧
    menuItemId pkCode (brokenItem :: [fileItem]) [70] = "file" :=
  ⟨by decide, by decide, by decide,
   C10_trailing_marker_skipped pkCode [70] brokenItem [fileItem] 6
     (by decide) (by decide) (by decide),
   by decide⟩

theorem navigateToSubItem_no_bridge (env : NavEnv) (menuId : String)
    (eventKeys : List Int) (s : NavState)
    (h : env.activeSection = none ∨ env.activePanel = none) :
    navigateToSubItem env menuId eventKeys s = ⟨s, []⟩ := by
  unfold navigateToSubItem
  split
  · next heq1 heq2 => rcases h with hh | hh <;> simp_all
  · simp

theorem navigateToSubItem_valid (env : NavEnv) (menuId : String) (eventKeys : List Int)
    (s : NavState) (hne : (subItemFor env menuId eventKeys).id ≠ "")
    (sec pan : String) (hsec : env.activeSection = some sec)
    (hpan : env.activePanel = some pan) :
    navigateToSubItem env menuId eventKeys s =
      ⟨s, Effect.requestActivateByName sec pan (subItemFor env menuId eventKeys).id
            :: (match env.activeControl with
                | none => []
                | some c =>
                  if (subItemFor env menuId eventKeys).subitems.isEmpty then []
                  else [Effect.trigger c])⟩ := by
  have h1 : ((subItemFor env menuId eventKeys).id == "") = false := by
    simpa using hne
  unfold navigateToSubItem
  rw [hsec, hpan]
  simp only [h1, Bool.false_eq_true, if_false]
  cases hctl : env.activeControl with
  | none => simp
  | some c =>
    by_cases hie : (subItemFor env menuId eventKeys).subitems.isEmpty = true
    · simp [hie]
    · simp only [hie, if_false]
      simp [show (subItemFor env menuId eventKeys).subitems.isEmpty = false from by
        simpa using hie]

/-- C6: subitem navigation resolves the matching subitem of the open
menu: no match → no-op; no active section or panel → no-op; otherwise
the state is unchanged and the first bridge call is the
activate-by-name request for the subitem; a `trigger` call can occur
only when the subitem itself has children — a matched leaf subitem is
focused but never triggered. -/
theorem C6_subitem_focus_not_trigger (env : NavEnv) (menuId : String)
    (eventKeys : List Int) (s : NavState) :
    ((subItemFor env menuId eventKeys).id = "" →
      navigateToSubItem env menuId eventKeys s = ⟨s, []⟩) ∧
    (env.activeSection = none ∨ env.activePanel = none →
      navigateToSubItem env menuId eventKeys s = ⟨s, []⟩) ∧
    (∀ sec pan, env.activeSection = some sec → env.activePanel = some pan →
      (subItemFor env menuId eventKeys).id ≠ "" →
      (navigateToSubItem env menuId eventKeys s).state = s ∧
      (navigateToSubItem env menuId eventKeys s).effects.head?
        = some (.requestActivateByName sec pan (subItemFor env menuId eventKeys).id)) ∧
    (∀ c, Effect.trigger c ∈ (navigateToSubItem env menuId eventKeys s).effects →
      (subItemFor env menuId eventKeys).subitems ≠ []) := by
  refine ⟨fun h => navigateToSubItem_invalid env menuId eventKeys s h,
    fun h => navigateToSubItem_no_bridge env menuId eventKeys s h, ?_, ?_⟩
  · intro sec pan hsec hpan hne
    rw [navigateToSubItem_valid env menuId eventKeys s hne sec pan hsec hpan]
    exact ⟨rfl, rfl⟩
  · intro c hc
    by_cases hid : (subItemFor env menuId eventKeys).id = ""
    · rw [navigateToSubItem_invalid env menuId eventKeys s hid] at hc
      simp at hc
    · cases hsec : env.activeSection with
      | none =>
        rw [navigateToSubItem_no_bridge env menuId eventKeys s (Or.inl hsec)] at hc
        simp at hc
      | some sec =>
        cases hpan : env.activePanel with
        | none =>
          rw [navigateToSubItem_no_bridge env menuId eventKeys s (Or.inr hpan)] at hc
          simp at hc
        | some pan =>
          rw [navigateToSubItem_valid env menuId eventKeys s hid sec pan hsec hpan] at hc
          cases hctl : env.activeControl with
          | none =>
            rw [hctl] at hc
            simp at hc
          | some c2 =>
            rw [hctl] at hc
            by_cases hie : (subItemFor env menuId eventKeys).subitems.isEmpty = true
            · simp [hie] at hc
            · simpa [List.isEmpty_iff] using hie

/-- C6 (witness): in the populated environment, the `S` key set resolves
to the leaf subitem Save of the open File menu: state unchanged, the
bridge request for Save is issued first, and no trigger occurs (Save has
no children); the nested subitem Plugins, by contrast, has children. -/
theorem C6_subitem_focus_not_trigger_witness :
    (subItemFor envSub "file" [83]).id ≠ "" ∧
    envSub.activeSection = some "sec" ∧ envSub.activePanel = some "pan" ∧
    ((navigateToSubItem envSub "file" [83] openedFileState).state = openedFileState ∧
     (navigateToSubItem envSub "file" [83] openedFileState).effects.head?
       = some (.requestActivateByName "sec" "pan" (subItemFor envSub "file" [83]).id)) ∧
    (∀ c, Effect.trigger c ∈ (navigateToSubItem envSub "file" [83] openedFileState).effects
      → (subItemFor envSub "file" [83]).subitems ≠ []) ∧
    (navigateToSubItem envSub "file" [83] openedFileState).effects
      = [Effect.requestActivateByName "sec" "pan" "save"] :=
  have h := C6_subitem_focus_not_trigger envSub "file" [83] openedFileState
  ⟨by decide, rfl, rfl,
   h.2.2.1 "sec" "pan" rfl rfl (by decide), h.2.2.2, by decide⟩

/-- C4 (counterexample): with the File submenu open (containing
`Save(&S)`) and a matching plain `S` shortcut-override probe, the probe
does not merely mark the event consumed: it performs the subitem
navigation immediately — the probe's own trace already contains the
bridge activate-by-name request, refuting the claim that the navigation
happens only on the subsequent committed key-press. -/
theorem C4_counterexample :
    (processEventForOpenedMenu envSub sOverrideEvent openedFileState).consumed = true ∧
    (processEventForOpenedMenu envSub sOverrideEvent openedFileState).effects
      = [Effect.requestActivateByName "sec" "pan" "save"] ∧
    ¬((processEventForOpenedMenu envSub sOverrideEvent openedFileState).effects = []) := by
  decide

/-- C4 (amended): in the submenu-open context, a matching no-modifier
single-character shortcut-override probe both consumes the event and
performs the subitem navigation during the probe itself; committed
key-presses (and all other event types) are not handled in this context
at all. -/
theorem C4_probe_navigates (env : NavEnv) (ev : KeyEvent) (s : NavState)
    (hty : ev.etype = QEventType.shortcutOverride)
    (halt : ev.alt = false) (hshift : ev.shift = false) (hother : ev.otherMods = false)
    (hlen : ev.textLength = 1)
    (hmatch : hasSubItem env s.openedMenuId ev.eventKeys = true) :
    processEventForOpenedMenu env ev s
      = ⟨true, (navigateToSubItem env s.openedMenuId ev.eventKeys s).state,
               (navigateToSubItem env s.openedMenuId ev.eventKeys s).effects⟩ ∧
    (∀ ev2 : KeyEvent, ev2.etype ≠ QEventType.shortcutOverride →
      processEventForOpenedMenu env ev2 s = ⟨false, s, []⟩) := by
  constructor
  · simp [processEventForOpenedMenu, hty, halt, hshift, hother, hlen, hmatch]
  · intro ev2 h2
    unfold processEventForOpenedMenu
    cases hev : ev2.etype <;> simp_all

/-- C4 (witness for the amended theorem): the concrete matching `S`
probe on the open File menu consumes and navigates during the probe, and
a committed key-press (the Escape press event) is not handled by the
submenu-open entry point. -/
theorem C4_probe_navigates_witness :
    sOverrideEvent.etype = QEventType.shortcutOverride ∧
    sOverrideEvent.alt = false ∧ sOverrideEvent.shift = false ∧
    sOverrideEvent.otherMods = false ∧ sOverrideEvent.textLength = 1 ∧
    hasSubItem envSub openedFileState.openedMenuId sOverrideEvent.eventKeys = true ∧
    processEventForOpenedMenu envSub sOverrideEvent openedFileState
      = ⟨true,
         (navigateToSubItem envSub openedFileState.openedMenuId
            sOverrideEvent.eventKeys openedFileState).state,
         (navigateToSubItem envSub openedFileState.openedMenuId
            sOverrideEvent.eventKeys openedFileState).effects⟩ ∧
    processEventForOpenedMenu envSub escEvent openedFileState
      = ⟨false, openedFileState, []⟩ :=
  have h := C4_probe_navigates envSub sOverrideEvent openedFileState
    rfl rfl rfl rfl rfl (by decide)
  ⟨rfl, rfl, rfl, rfl, rfl, by decide, h.1, h.2 escEvent (by decide)⟩
